import Mathlib

/-!
Shallow embedding of `hicap_analysis/wells.py`.

Python/numpy floats are modelled as real numbers; numpy integer arrays as
`List ℤ`; python dicts as association lists in insertion order; exceptions as
`Except String`/`Option`.  The external special functions `scipy.special.exp1`
and `scipy.special.erfc` are abstracted as function parameters.
-/

/-- Model of `np.arange(1, n+1)`: the day-index sequence 1..n as integers. -/
def arange1 (n : ℕ) : List ℤ := (List.range n).map (fun i => Int.ofNat i + 1)

/-- Normalisation of a (possibly negative) python/numpy slice start index
against a sequence of length `n`: negative indices count from the end and
everything is clamped into `[0, n]`. -/
def npSliceStart (n : ℕ) (start : ℤ) : ℕ :=
  if start < 0 then (start + n).toNat else min start.toNat n

/-- Model of the numpy in-place slice assignment `a[start:] = rhs` for a 1-d
integer array: succeeds when the right-hand side broadcasts onto the selected
segment (equal length, or a single element), otherwise it is a broadcast
`ValueError`, modelled as `none`. -/
def sliceAssignFrom (a : List ℤ) (start : ℤ) (rhs : List ℤ) : Option (List ℤ) :=
  let s := npSliceStart a.length start
  if rhs.length = a.length - s then some (a.take s ++ rhs)
  else if rhs.length = 1 then
    some (a.take s ++ List.replicate (a.length - s) (rhs.headD 0))
  else none

/-- Model of the python/numpy read slice `a[0:stop]` with a possibly negative
`stop` (negative counts from the end, everything clamps into `[0, len a]`). -/
def pySliceTo (a : List ℤ) (stop : ℤ) : List ℤ :=
  if stop < 0 then a.take (stop + a.length).toNat else a.take stop.toNat

/-- Year-0 base series: `self.baseyears[0] = np.arange(1, 365*self.depletion_years + 1)`. -/
def baseyear0 (Y : ℕ) : List ℤ := arange1 (365 * Y)

/-- Year-0 image series:
`imageyears[0] = np.zeros_like(baseyears[0])` followed by
`imageyears[0][depl_pump_time:] = np.arange(1, len(imageyears[0]) - depl_pump_time + 1)`. -/
def imageyear0 (Y : ℕ) (dpt : ℤ) : Option (List ℤ) :=
  sliceAssignFrom (List.replicate (365 * Y) 0) dpt
    (arange1 ((365 * (Y : ℤ) - dpt).toNat))

/-- Base series of year `y ≥ 1`:
`cby = np.zeros_like(baseyears[0]); cby[365*y:] = baseyears[0][0:len(baseyears[0])-365*y]`. -/
def baseyearY (Y : ℕ) (y : ℕ) : Option (List ℤ) :=
  sliceAssignFrom (List.replicate (365 * Y) 0) (365 * (y : ℤ))
    (pySliceTo (baseyear0 Y) (365 * (Y : ℤ) - 365 * (y : ℤ)))

/-- Image series of year `y ≥ 1`:
`ciy = np.zeros_like(baseyears[0]); poffset = 365*y + depl_pump_time;
ciy[poffset:] = baseyears[0][0:len(ciy) - poffset]`. -/
def imageyearY (Y : ℕ) (dpt : ℤ) (y : ℕ) : Option (List ℤ) :=
  let poffset : ℤ := 365 * (y : ℤ) + dpt
  sliceAssignFrom (List.replicate (365 * Y) 0) poffset
    (pySliceTo (baseyear0 Y) (365 * (Y : ℤ) - poffset))

/-- The loop `for y in range(1, depletion_years)` building the per-year
(base, image) series pairs; the first failing slice assignment aborts the
whole computation, as the numpy `ValueError` would. -/
def buildYears (Y : ℕ) (dpt : ℤ) : List ℕ → Option (List (List ℤ × List ℤ))
  | [] => some []
  | y :: ys =>
    match baseyearY Y y, imageyearY Y dpt y, buildYears Y dpt ys with
    | some b, some i, some rest => some ((b, i) :: rest)
    | _, _, _ => none

/-- All (base, image) series pairs of `WellResponse._calc_depletion`, year 0
first, then years `1 .. depletion_years - 1`. -/
def calcSeries (Y : ℕ) (dpt : ℤ) : Option (List (List ℤ × List ℤ)) :=
  match imageyear0 Y dpt, buildYears Y dpt (List.range' 1 (Y - 1)) with
  | some i0, some rest => some ((baseyear0 Y, i0) :: rest)
  | _, _ => none

/-- Elementwise (numpy-vectorised) application of a depletion method `f` to a
day-index series: `f(T, S, dist, time_array, Q)`.  The value type is kept
generic over the additive structure so that concrete witnesses can be
evaluated; the program instantiates it at the reals. -/
def evalSeries {α : Type} (f : ℝ → ℝ → ℝ → ℤ → ℝ → α)
    (T S dist Q : ℝ) (ts : List ℤ) : List α :=
  ts.map (fun t => f T S dist t Q)

/-- Elementwise `+=` of two equal-length numpy arrays. -/
def vecAdd {α : Type} [Add α] : List α → List α → List α := List.zipWith (· + ·)

/-- Elementwise `-` of two equal-length numpy arrays. -/
def vecSub {α : Type} [Sub α] : List α → List α → List α := List.zipWith (· - ·)

/-- Body of `WellResponse._calc_depletion` for a fixed depletion method `f` (already
looked up in the registry): build all yearly series, then
`depl += f(T_gpd_ft, S, dist, cby, Q*stream_apportionment)` and
`rech += f(T_gpd_ft, S, dist, ciy, Q*stream_apportionment)` over all years,
returning `depl - rech`; `none` models the numpy broadcast `ValueError`
raised while the series are being built. -/
def _calc_depletion {α : Type} [Zero α] [Add α] [Sub α]
    (f : ℝ → ℝ → ℝ → ℤ → ℝ → α) (T S dist Q app : ℝ) (Y : ℕ) (dpt : ℤ) :
    Option (List α) :=
  (calcSeries Y dpt).map fun pairs =>
    let depl := pairs.foldl
      (fun acc p => vecAdd acc (evalSeries f T S dist (Q * app) p.1))
      (List.replicate (365 * Y) 0)
    let rech := pairs.foldl
      (fun acc p => vecAdd acc (evalSeries f T S dist (Q * app) p.2))
      (List.replicate (365 * Y) 0)
    vecSub depl rech

/-- All time values at which `_calc_depletion` invokes the chosen depletion
method: every element of every base series and of every image series. -/
def invokedTimes (Y : ℕ) (dpt : ℤ) : Option (List ℤ) :=
  (calcSeries Y dpt).map fun pairs =>
    (pairs.map Prod.fst).flatten ++ (pairs.map Prod.snd).flatten

/-- Python's `str.lower()`, modelled characterwise (the method names used
here are ASCII). -/
def pyLower (s : String) : String := String.mk (s.data.map Char.toLower)

/-- Function `_theis(T, S, time, dist, Q)`: Theis drawdown at a single location.
`scipy.special.exp1` (the order-1 exponential integral) is abstracted as the
parameter `e1`. -/
noncomputable def _theis (e1 : ℝ → ℝ) (T S time dist Q : ℝ) : ℝ :=
  let u := dist ^ 2 * S / (4 * T * time)
  (Q / (4 * Real.pi * T)) * e1 u

/-- Elementwise `_theis` over a list of times (numpy vectorisation over the
`time` argument). -/
noncomputable def _theisTimes (e1 : ℝ → ℝ) (T S : ℝ) (times : List ℝ)
    (dist Q : ℝ) : List ℝ :=
  times.map (fun time => _theis e1 T S time dist Q)

/-- Elementwise `_theis` over a list of distances (numpy vectorisation over
the `dist` argument). -/
noncomputable def _theisDists (e1 : ℝ → ℝ) (T S time : ℝ) (dists : List ℝ)
    (Q : ℝ) : List ℝ :=
  dists.map (fun dist => _theis e1 T S time dist Q)

/-- Function `_glover(T, S, time, dist, Q)`: Glover stream depletion;
`scipy.special.erfc` is abstracted as the parameter `erfc`. -/
noncomputable def _glover (erfc : ℝ → ℝ) (T S time dist Q : ℝ) : ℝ :=
  let z := Real.sqrt ((dist ^ 2 * S) / (4 * T * time))
  Q * erfc z

/-- Function `_sdf(T, S, dist)`: stream depletion factor. -/
noncomputable def _sdf (T S dist : ℝ) : ℝ := dist ^ 2 * S / T

/-- Function `_walton(T, S, dist, time, Q)`: Walton (1987 PT-8) empirical stream
depletion. -/
noncomputable def _walton (T S dist time Q : ℝ) : ℝ :=
  let G := if dist > 0 then dist / Real.sqrt (0.535 * time * T / S) else 0
  let I := 1 + 0.0705230784 * G + 0.0422820123 * (G ^ 2) + 9.2705272e-03 * (G ^ 3)
  let J := (I + 1.52014e-04 * (G ^ 4) + 2.76567e-04 * (G ^ 5) + 4.30638e-05 * (G ^ 6)) ^ (16 : ℕ)
  Q * (1 / J) / 3600 / 24

/-- Registry `ALL_DD_METHODS = {'theis': _theis}`, keyed by lowercase name. -/
noncomputable def ALL_DD_METHODS (e1 : ℝ → ℝ) : List (String × (ℝ → ℝ → ℝ → ℝ → ℝ → ℝ)) :=
  [("theis", _theis e1)]

/-- Registry `ALL_DEPL_METHODS = {'glover': _glover, 'walton': _walton}`, keyed by
lowercase name.  The stored callables keep their own positional signatures;
the caller applies them positionally exactly as the source does. -/
noncomputable def ALL_DEPL_METHODS (erfc : ℝ → ℝ) : List (String × (ℝ → ℝ → ℝ → ℝ → ℝ → ℝ)) :=
  [("glover", _glover erfc), ("walton", _walton)]

/-- Constant `GPM2CFD = 60*24/7.48`. -/
noncomputable def GPM2CFD : ℝ := 60 * 24 / 7.48

/-- The `WellResponse` object.  `cached_drawdown`/`cached_depletion` are the
`self._drawdown`/`self._depletion` memoisation slots (`None` = unset). -/
structure WellResponse where
  name : String
  response_type : String
  T : ℝ
  T_gpd_ft : ℝ
  S : ℝ
  dist : ℝ
  dd_method : String
  depl_method : String
  depletion_years : ℕ
  theis_time : ℤ
  depl_pump_time : ℤ
  Q : ℝ
  stream_apportionment : Option ℝ
  cached_drawdown : Option ℝ
  cached_depletion : Option (List ℝ)

/-- Model of `WellResponse.__init__`: stores the configuration, sets
`T_gpd_ft = T*7.48` and leaves both memoisation slots unset.  Arguments are in
the python parameter order; python's defaults are supplied explicitly at each
call site. -/
noncomputable def WellResponse.mk_init (name response_type : String)
    (T S dist Q : ℝ) (stream_apportionment : Option ℝ)
    (dd_method depl_method : String) (theis_time depl_pump_time : ℤ)
    (depletion_years : ℕ) : WellResponse :=
  { name := name
    response_type := response_type
    T := T
    T_gpd_ft := T * 7.48
    S := S
    dist := dist
    dd_method := dd_method
    depl_method := depl_method
    depletion_years := depletion_years
    theis_time := theis_time
    depl_pump_time := depl_pump_time
    Q := Q
    stream_apportionment := stream_apportionment
    cached_drawdown := none
    cached_depletion := none }

/-- Model of `WellResponse._calc_drawdown`:
`dd_f = ALL_DD_METHODS[self.dd_method.lower()]` (a `KeyError` when absent)
then `dd_f(self.T, self.S, self.theis_time, self.dist, self.Q)`. -/
noncomputable def WellResponse.calc_drawdown (e1 : ℝ → ℝ) (w : WellResponse) :
    Except String ℝ :=
  match (ALL_DD_METHODS e1).lookup (pyLower w.dd_method) with
  | none => .error "KeyError"
  | some dd_f => .ok (dd_f w.T w.S (w.theis_time : ℝ) w.dist w.Q)

/-- Model of `WellResponse._calc_depletion`:
`depl_f = ALL_DEPL_METHODS[self.depl_method.lower()]` (a `KeyError` when
absent); then the yearly series are built (a broadcast `ValueError` aborts);
then every year is evaluated as
`depl_f(self.T_gpd_ft, self.S, self.dist, series, self.Q*self.stream_apportionment)`
(a `TypeError` when `stream_apportionment` is `None`), and `depl - rech` is
returned. -/
noncomputable def WellResponse.calc_depletion (erfc : ℝ → ℝ) (w : WellResponse) :
    Except String (List ℝ) :=
  match (ALL_DEPL_METHODS erfc).lookup (pyLower w.depl_method) with
  | none => .error "KeyError"
  | some depl_f =>
    match calcSeries w.depletion_years w.depl_pump_time with
    | none => .error "ValueError"
    | some _ =>
      match w.stream_apportionment with
      | none => .error "TypeError"
      | some app =>
        match _calc_depletion (fun T S d t Q => depl_f T S d (t : ℝ) Q)
            w.T_gpd_ft w.S w.dist w.Q app w.depletion_years w.depl_pump_time with
        | none => .error "ValueError"
        | some r => .ok r

/-- The `WellResponse.drawdown` property: return the cached value when set,
otherwise compute `_calc_drawdown` once, store it and return it (the updated
object carries the filled slot). -/
noncomputable def WellResponse.drawdownAccess (e1 : ℝ → ℝ) (w : WellResponse) :
    Except String (ℝ × WellResponse) :=
  match w.cached_drawdown with
  | some v => .ok (v, w)
  | none =>
    match w.calc_drawdown e1 with
    | .error e => .error e
    | .ok v => .ok (v, { w with cached_drawdown := some v })

/-- The `WellResponse.depletion` property: cached value when set, otherwise
compute `_calc_depletion` once, store and return it. -/
noncomputable def WellResponse.depletionAccess (erfc : ℝ → ℝ) (w : WellResponse) :
    Except String (List ℝ × WellResponse) :=
  match w.cached_depletion with
  | some v => .ok (v, w)
  | none =>
    match w.calc_depletion erfc with
    | .error e => .error e
    | .ok v => .ok (v, { w with cached_depletion := some v })

/-- The `Well` object.  Python dicts are association lists in insertion
order; `cached_drawdown`/`cached_depletion` are the well-level
`self._drawdown`/`self._depletion` memoisation slots. -/
structure Well where
  T : ℝ
  S : ℝ
  Q : ℝ
  depletion_years : ℕ
  theis_dd_time : ℤ
  depl_pump_time : ℤ
  stream_dist : List (String × ℝ)
  drawdown_dist : List (String × ℝ)
  stream_apportionment : List (String × ℝ)
  stream_responses : List (ℕ × WellResponse)
  drawdown_responses : List (ℕ × WellResponse)
  cached_depletion : Option (List (String × List ℝ))
  cached_drawdown : Option (List (String × ℝ))

/-- Model of `Well.__init__`.  The construction-time check is
`assert len(set(self.stream_dist.keys()) - set(self.stream_apportionment.keys())) == 0`;
an `AssertionError` aborts construction.  Afterwards one stream
`WellResponse` is created per `stream_dist` entry (with
`depl_method='walton'` and the class defaults `dd_method='Theis'`,
`theis_time=-9999`, `depletion_years=5`) and one drawdown `WellResponse` per
`drawdown_dist` entry (with `dd_method='theis'` and the class defaults
`depl_method='Walton'`, `depl_pump_time=-99999`,
`stream_apportionment=None`).  The unimplemented location-to-distance
branches are out of scope: the model corresponds to calls supplying
distances and no raw locations. -/
noncomputable def Well.mk_init (T S Q : ℝ) (depletion_years : ℕ)
    (theis_dd_time depl_pump_time : ℤ)
    (stream_dist drawdown_dist stream_apportionment : List (String × ℝ)) :
    Except String Well :=
  if ((stream_dist.map Prod.fst).toFinset \
      (stream_apportionment.map Prod.fst).toFinset).card = 0 then
    .ok
      { T := T
        S := S
        Q := Q
        depletion_years := depletion_years
        theis_dd_time := theis_dd_time
        depl_pump_time := depl_pump_time
        stream_dist := stream_dist
        drawdown_dist := drawdown_dist
        stream_apportionment := stream_apportionment
        stream_responses := stream_dist.enum.map (fun cs =>
          (cs.1 + 1, WellResponse.mk_init cs.2.1 "stream" T S cs.2.2 Q
            (stream_apportionment.lookup cs.2.1) "Theis" "walton"
            (-9999) depl_pump_time 5))
        drawdown_responses := drawdown_dist.enum.map (fun cw =>
          (cw.1 + 1, WellResponse.mk_init cw.2.1 "well" T S cw.2.2 Q
            none "theis" "Walton" theis_dd_time (-99999) depletion_years))
        cached_depletion := none
        cached_drawdown := none }
  else .error "AssertionError"

/-- The loop body of the `Well.drawdown` property: access the drawdown of
every response in order, building the name-keyed result mapping; the
responses' own caches fill as a side effect. -/
noncomputable def accessAllDrawdowns (e1 : ℝ → ℝ) :
    List (ℕ × WellResponse) →
    Except String (List (String × ℝ) × List (ℕ × WellResponse))
  | [] => .ok ([], [])
  | (i, r) :: rest =>
    match r.drawdownAccess e1 with
    | .error e => .error e
    | .ok (v, r') =>
      match accessAllDrawdowns e1 rest with
      | .error e => .error e
      | .ok (d, rs) => .ok ((r.name, v) :: d, (i, r') :: rs)

/-- The loop body of the `Well.depletion` property. -/
noncomputable def accessAllDepletions (erfc : ℝ → ℝ) :
    List (ℕ × WellResponse) →
    Except String (List (String × List ℝ) × List (ℕ × WellResponse))
  | [] => .ok ([], [])
  | (i, r) :: rest =>
    match r.depletionAccess erfc with
    | .error e => .error e
    | .ok (v, r') =>
      match accessAllDepletions erfc rest with
      | .error e => .error e
      | .ok (d, rs) => .ok ((r.name, v) :: d, (i, r') :: rs)

/-- The `Well.drawdown` property: well-level cache when set, otherwise build
the name-keyed mapping from all drawdown responses and store it. -/
noncomputable def Well.drawdownAccess (e1 : ℝ → ℝ) (w : Well) :
    Except String (List (String × ℝ) × Well) :=
  match w.cached_drawdown with
  | some v => .ok (v, w)
  | none =>
    match accessAllDrawdowns e1 w.drawdown_responses with
    | .error e => .error e
    | .ok (d, rs) =>
      .ok (d, { w with cached_drawdown := some d, drawdown_responses := rs })

/-- The `Well.depletion` property: well-level cache when set, otherwise build
the name-keyed mapping from all stream responses and store it. -/
noncomputable def Well.depletionAccess (erfc : ℝ → ℝ) (w : Well) :
    Except String (List (String × List ℝ) × Well) :=
  match w.cached_depletion with
  | some v => .ok (v, w)
  | none =>
    match accessAllDepletions erfc w.stream_responses with
    | .error e => .error e
    | .ok (d, rs) =>
      .ok (d, { w with cached_depletion := some d, stream_responses := rs })

/-- Spec-side base series for year `y` (from the spec's words): the day-index
sequence `1..N` shifted forward by `365·y` days, zero-padded at the front,
with `N = 365·depletion_years`. -/
def specBaseSeries (Y y : ℕ) : List ℤ :=
  List.replicate (365 * y) 0 ++ arange1 (365 * Y - 365 * y)

/-- Spec-side image series for year `y` (from the spec's words): the base
series shape additionally offset by `depl_pump_time` days. -/
def specImageSeries (Y y dptN : ℕ) : List ℤ :=
  List.replicate (365 * y + dptN) 0 ++ arange1 (365 * Y - (365 * y + dptN))

/-- Spec-side depletion result (from the spec's words): evaluate the chosen
method on every year's base series and image series with `Q` scaled by the
apportionment fraction, and return the sum of the base evaluations minus the
sum of the image evaluations. -/
def depletionSpec {α : Type} [Zero α] [Add α] [Sub α]
    (f : ℝ → ℝ → ℝ → ℤ → ℝ → α) (T S dist Q app : ℝ) (Y dptN : ℕ) : List α :=
  vecSub
    ((List.range Y).foldl
      (fun acc y => vecAdd acc (evalSeries f T S dist (Q * app) (specBaseSeries Y y)))
      (List.replicate (365 * Y) 0))
    ((List.range Y).foldl
      (fun acc y => vecAdd acc (evalSeries f T S dist (Q * app) (specImageSeries Y y dptN)))
      (List.replicate (365 * Y) 0))

lemma arange1_length (n : ℕ) : (arange1 n).length = n := by
  unfold arange1
  rw [List.length_map, List.length_range]

lemma arange1_take (n k : ℕ) : (arange1 n).take k = arange1 (min k n) := by
  unfold arange1
  rw [← List.map_take, List.take_range]

lemma sliceAssignFrom_replicate (n : ℕ) (start : ℤ) (rhs : List ℤ)
    (h0 : 0 ≤ start) (h1 : start ≤ (n : ℤ)) (h2 : rhs.length = n - start.toNat) :
    sliceAssignFrom (List.replicate n (0 : ℤ)) start rhs
      = some (List.replicate start.toNat 0 ++ rhs) := by
  have hts : start.toNat ≤ n := by omega
  unfold sliceAssignFrom npSliceStart
  simp only [List.length_replicate]
  rw [if_neg (by omega : ¬ start < 0), min_eq_left hts, if_pos h2,
    List.take_replicate, min_eq_left hts]

lemma pySliceTo_arange1 (n : ℕ) (k : ℤ) (h : 0 ≤ k) :
    pySliceTo (arange1 n) k = arange1 (min k.toNat n) := by
  unfold pySliceTo
  rw [if_neg (by omega : ¬ k < 0), arange1_take]

lemma imageyear0_eq (Y : ℕ) (dpt : ℤ) (h0 : 0 ≤ dpt) (h1 : dpt ≤ 365 * (Y : ℤ)) :
    imageyear0 Y dpt = some (specImageSeries Y 0 dpt.toNat) := by
  unfold imageyear0 specImageSeries
  rw [sliceAssignFrom_replicate _ _ _ h0 (by omega)
    (by rw [arange1_length]; omega)]
  have e1 : 365 * 0 + dpt.toNat = dpt.toNat := by omega
  have e2 : (365 * (Y : ℤ) - dpt).toNat = 365 * Y - dpt.toNat := by omega
  rw [e1, e2]

lemma baseyearY_eq (Y y : ℕ) (h : y ≤ Y) :
    baseyearY Y y = some (specBaseSeries Y y) := by
  unfold baseyearY baseyear0 specBaseSeries
  rw [pySliceTo_arange1 _ _ (by omega : (0:ℤ) ≤ 365 * (Y : ℤ) - 365 * (y : ℤ))]
  rw [sliceAssignFrom_replicate _ _ _ (by omega) (by omega)
    (by rw [arange1_length]; omega)]
  have e1 : (365 * (y : ℤ)).toNat = 365 * y := by omega
  have e2 : min (365 * (Y : ℤ) - 365 * (y : ℤ)).toNat (365 * Y) = 365 * Y - 365 * y := by
    omega
  rw [e1, e2]

lemma imageyearY_eq (Y y : ℕ) (dpt : ℤ) (h0 : 0 ≤ dpt)
    (h : 365 * (y : ℤ) + dpt ≤ 365 * (Y : ℤ)) :
    imageyearY Y dpt y = some (specImageSeries Y y dpt.toNat) := by
  simp only [imageyearY, baseyear0, specImageSeries]
  rw [pySliceTo_arange1 _ _ (by omega : (0:ℤ) ≤ 365 * (Y : ℤ) - (365 * (y : ℤ) + dpt))]
  rw [sliceAssignFrom_replicate _ _ _ (by omega) (by omega)
    (by rw [arange1_length]; omega)]
  have e1 : (365 * (y : ℤ) + dpt).toNat = 365 * y + dpt.toNat := by omega
  have e2 : min (365 * (Y : ℤ) - (365 * (y : ℤ) + dpt)).toNat (365 * Y)
      = 365 * Y - (365 * y + dpt.toNat) := by omega
  rw [e1, e2]

lemma buildYears_eq (Y : ℕ) (dpt : ℤ) (h0 : 0 ≤ dpt) (h365 : dpt ≤ 365)
    (l : List ℕ) (hl : ∀ y ∈ l, y < Y) :
    buildYears Y dpt l
      = some (l.map fun y => (specBaseSeries Y y, specImageSeries Y y dpt.toNat)) := by
  induction l with
  | nil => rfl
  | cons y ys ih =>
    have hy : y < Y := hl y (List.mem_cons_self y ys)
    have hrest := ih (fun z hz => hl z (List.mem_cons_of_mem y hz))
    unfold buildYears
    rw [baseyearY_eq Y y (by omega),
      imageyearY_eq Y y dpt h0 (by omega), hrest]
    rfl

lemma calcSeries_eq (Y : ℕ) (dpt : ℤ) (hY : 1 ≤ Y) (h0 : 0 ≤ dpt)
    (h365 : dpt ≤ 365) :
    calcSeries Y dpt
      = some ((List.range Y).map fun y =>
          (specBaseSeries Y y, specImageSeries Y y dpt.toNat)) := by
  obtain ⟨k, rfl⟩ : ∃ k, Y = k + 1 := ⟨Y - 1, by omega⟩
  unfold calcSeries
  rw [imageyear0_eq _ dpt h0 (by omega)]
  have hsimp : k + 1 - 1 = k := by omega
  rw [hsimp]
  rw [buildYears_eq _ dpt h0 h365 _
    (fun y hy => by
      have := List.mem_range'_1.mp hy
      omega)]
  rw [List.range_succ_eq_map, List.range'_eq_map_range]
  simp only [List.map_cons, List.map_map]
  have hb0 : specBaseSeries (k + 1) 0 = baseyear0 (k + 1) := by
    simp [specBaseSeries, baseyear0]
  rw [hb0]
  refine congrArg some (congrArg (List.cons _) ?_)
  refine List.map_congr_left (fun a ha => ?_)
  have h1a : 1 + a = Nat.succ a := by omega
  simp only [Function.comp_apply, h1a]

lemma vecAdd_length {α : Type} [Add α] (a b : List α) :
    (vecAdd a b).length = min a.length b.length := by
  simp [vecAdd]

lemma vecSub_length {α : Type} [Sub α] (a b : List α) :
    (vecSub a b).length = min a.length b.length := by
  simp [vecSub]

lemma evalSeries_length {α : Type} (f : ℝ → ℝ → ℝ → ℤ → ℝ → α)
    (T S dist Q : ℝ) (ts : List ℤ) :
    (evalSeries f T S dist Q ts).length = ts.length := by
  simp [evalSeries]

lemma specBaseSeries_length (Y y : ℕ) (h : y ≤ Y) :
    (specBaseSeries Y y).length = 365 * Y := by
  unfold specBaseSeries
  rw [List.length_append, List.length_replicate, arange1_length]
  omega

lemma specImageSeries_length (Y y dptN : ℕ) (h : 365 * y + dptN ≤ 365 * Y) :
    (specImageSeries Y y dptN).length = 365 * Y := by
  unfold specImageSeries
  rw [List.length_append, List.length_replicate, arange1_length]
  omega

lemma foldl_vecAdd_length {α β : Type} [Add α] (g : β → List α) (n : ℕ) :
    ∀ (l : List β) (init : List α), init.length = n →
      (∀ x ∈ l, (g x).length = n) →
      (l.foldl (fun acc x => vecAdd acc (g x)) init).length = n := by
  intro l
  induction l with
  | nil => intro init hi _; simpa using hi
  | cons x xs ih =>
    intro init hi hg
    simp only [List.foldl_cons]
    refine ih _ ?_ (fun z hz => hg z (List.mem_cons_of_mem x hz))
    rw [vecAdd_length, hi, hg x (List.mem_cons_self x xs)]
    omega

lemma calc_depletion_eq {α : Type} [Zero α] [Add α] [Sub α]
    (f : ℝ → ℝ → ℝ → ℤ → ℝ → α) (T S dist Q app : ℝ) (Y : ℕ) (dpt : ℤ)
    (hY : 1 ≤ Y) (h0 : 0 ≤ dpt) (h365 : dpt ≤ 365) :
    _calc_depletion f T S dist Q app Y dpt
      = some (depletionSpec f T S dist Q app Y dpt.toNat) := by
  unfold _calc_depletion depletionSpec
  rw [calcSeries_eq Y dpt hY h0 h365]
  simp only [Option.map_some', List.foldl_map]

lemma depletionSpec_length {α : Type} [Zero α] [Add α] [Sub α]
    (f : ℝ → ℝ → ℝ → ℤ → ℝ → α) (T S dist Q app : ℝ) (Y dptN : ℕ)
    (hd : dptN ≤ 365) :
    (depletionSpec f T S dist Q app Y dptN).length = 365 * Y := by
  have hb : ∀ y ∈ List.range Y,
      (evalSeries f T S dist (Q * app) (specBaseSeries Y y)).length = 365 * Y := by
    intro y hy
    rw [evalSeries_length, specBaseSeries_length]
    exact Nat.le_of_lt (List.mem_range.mp hy)
  have hi : ∀ y ∈ List.range Y,
      (evalSeries f T S dist (Q * app) (specImageSeries Y y dptN)).length = 365 * Y := by
    intro y hy
    have := List.mem_range.mp hy
    rw [evalSeries_length, specImageSeries_length]
    omega
  unfold depletionSpec
  rw [vecSub_length,
    foldl_vecAdd_length _ (365 * Y) _ _ (List.length_replicate _ _) hb,
    foldl_vecAdd_length _ (365 * Y) _ _ (List.length_replicate _ _) hi,
    min_self]

lemma specImageSeries_zero (Y y : ℕ) : specImageSeries Y y 0 = specBaseSeries Y y := by
  simp [specImageSeries, specBaseSeries]

lemma vecSub_self {α : Type} [AddGroup α] (l : List α) :
    vecSub l l = List.replicate l.length (0 : α) := by
  unfold vecSub
  rw [List.zipWith_same]
  have h : (fun x : α => x - x) = fun _ : α => (0 : α) := funext fun x => sub_self x
  rw [h, List.map_const']

lemma depletionSpec_zero {α : Type} [AddGroup α]
    (f : ℝ → ℝ → ℝ → ℤ → ℝ → α) (T S dist Q app : ℝ) (Y : ℕ) :
    depletionSpec f T S dist Q app Y 0 = List.replicate (365 * Y) 0 := by
  unfold depletionSpec
  simp only [specImageSeries_zero]
  rw [vecSub_self, foldl_vecAdd_length _ (365 * Y) _ _ (List.length_replicate _ _)
    (fun y hy => by
      rw [evalSeries_length, specBaseSeries_length]
      exact Nat.le_of_lt (List.mem_range.mp hy))]

lemma imageyear0_neg (Y : ℕ) (dpt : ℤ) (hY : 1 ≤ Y) (hd : dpt < 0) :
    imageyear0 Y dpt = none := by
  unfold imageyear0 sliceAssignFrom npSliceStart
  simp only [List.length_replicate, arange1_length]
  rw [if_pos hd, if_neg (by omega), if_neg (by omega)]

lemma calc_depletion_neg {α : Type} [Zero α] [Add α] [Sub α]
    (f : ℝ → ℝ → ℝ → ℤ → ℝ → α) (T S dist Q app : ℝ) (Y : ℕ) (dpt : ℤ)
    (hY : 1 ≤ Y) (hd : dpt < 0) :
    _calc_depletion f T S dist Q app Y dpt = none := by
  unfold _calc_depletion calcSeries
  rw [imageyear0_neg Y dpt hY hd]
  rfl

lemma calcSeries_neg (Y : ℕ) (dpt : ℤ) (hY : 1 ≤ Y) (hd : dpt < 0) :
    calcSeries Y dpt = none := by
  unfold calcSeries
  rw [imageyear0_neg Y dpt hY hd]

lemma lookup_dd_none (e1 : ℝ → ℝ) (s : String) (h : s ≠ "theis") :
    (ALL_DD_METHODS e1).lookup s = none := by
  simp [ALL_DD_METHODS, List.lookup, beq_eq_false_iff_ne.mpr h]

lemma lookup_depl_none (erfc : ℝ → ℝ) (s : String)
    (hg : s ≠ "glover") (hw : s ≠ "walton") :
    (ALL_DEPL_METHODS erfc).lookup s = none := by
  simp [ALL_DEPL_METHODS, List.lookup, beq_eq_false_iff_ne.mpr hg,
    beq_eq_false_iff_ne.mpr hw]

lemma lookup_depl_walton (erfc : ℝ → ℝ) :
    (ALL_DEPL_METHODS erfc).lookup "walton" = some _walton := rfl

lemma lookup_depl_glover (erfc : ℝ → ℝ) :
    (ALL_DEPL_METHODS erfc).lookup "glover" = some (_glover erfc) := rfl

lemma sdiff_card_zero_iff (A B : List String) :
    ((A.toFinset \ B.toFinset).card = 0) ↔ ∀ k ∈ A, k ∈ B := by
  rw [Finset.card_eq_zero, Finset.sdiff_eq_empty_iff_subset, Finset.subset_iff]
  simp

lemma lookup_isSome_of_mem {β : Type} (k : String) (l : List (String × β))
    (h : k ∈ l.map Prod.fst) : ∃ v, l.lookup k = some v := by
  induction l with
  | nil => simp at h
  | cons a t ih =>
    by_cases hk : k = a.1
    · subst hk
      exact ⟨a.2, by simp [List.lookup]⟩
    · have : k ∈ t.map Prod.fst := by
        rcases List.mem_map.mp h with ⟨p, hp, hfst⟩
        rcases List.mem_cons.mp hp with rfl | hp'
        · exact absurd hfst.symm hk
        · exact List.mem_map.mpr ⟨p, hp', hfst⟩
      rcases ih this with ⟨v, hv⟩
      exact ⟨v, by simp [List.lookup, beq_eq_false_iff_ne.mpr hk, hv]⟩

/-- The method-name string used by `Well.__init__` for stream responses is
already lowercase. -/
lemma pyLower_walton : pyLower "walton" = "walton" := rfl

lemma calc_depletion_ok (erfc : ℝ → ℝ) (w : WellResponse) (app : ℝ)
    (hm : pyLower w.depl_method = "walton")
    (ha : w.stream_apportionment = some app)
    (hY : 1 ≤ w.depletion_years) (h0 : 0 ≤ w.depl_pump_time)
    (h365 : w.depl_pump_time ≤ 365) :
    w.calc_depletion erfc
      = .ok (depletionSpec (fun T S d t Q => _walton T S d (t : ℝ) Q)
          w.T_gpd_ft w.S w.dist w.Q app w.depletion_years w.depl_pump_time.toNat) := by
  unfold WellResponse.calc_depletion
  simp only [hm, lookup_depl_walton, calcSeries_eq _ _ hY h0 h365, ha,
    calc_depletion_eq _ _ _ _ _ _ _ _ hY h0 h365]

lemma calc_depletion_valueError (erfc : ℝ → ℝ) (w : WellResponse)
    (hm : pyLower w.depl_method = "walton" ∨ pyLower w.depl_method = "glover")
    (hY : 1 ≤ w.depletion_years) (hd : w.depl_pump_time < 0) :
    w.calc_depletion erfc = .error "ValueError" := by
  unfold WellResponse.calc_depletion
  rcases hm with h | h <;>
    rw [h] <;>
    simp only [lookup_depl_walton, lookup_depl_glover,
      calcSeries_neg _ _ hY hd]

lemma mk_init_ok (T S Q : ℝ) (Yw : ℕ) (tt dpt : ℤ)
    (sd dd sa : List (String × ℝ)) (w : Well)
    (h : Well.mk_init T S Q Yw tt dpt sd dd sa = .ok w) :
    (∀ k ∈ sd.map Prod.fst, k ∈ sa.map Prod.fst)
    ∧ w.stream_responses = sd.enum.map (fun cs =>
        (cs.1 + 1, WellResponse.mk_init cs.2.1 "stream" T S cs.2.2 Q
          (sa.lookup cs.2.1) "Theis" "walton" (-9999) dpt 5))
    ∧ w.cached_depletion = none := by
  unfold Well.mk_init at h
  split at h
  case isTrue hcond =>
    refine ⟨(sdiff_card_zero_iff _ _).mp hcond, ?_, ?_⟩ <;>
    · injection h with h2
      subst h2
      rfl
  case isFalse => simp at h

lemma depletionAccess_of_calc (erfc : ℝ → ℝ) (w : WellResponse) (v : List ℝ)
    (hc : w.cached_depletion = none) (h : w.calc_depletion erfc = .ok v) :
    w.depletionAccess erfc = .ok (v, { w with cached_depletion := some v }) := by
  unfold WellResponse.depletionAccess
  rw [hc, h]

lemma depletionAccess_of_calc_error (erfc : ℝ → ℝ) (w : WellResponse) (e : String)
    (hc : w.cached_depletion = none) (h : w.calc_depletion erfc = .error e) :
    w.depletionAccess erfc = .error e := by
  unfold WellResponse.depletionAccess
  rw [hc, h]

lemma drawdownAccess_of_calc_error (e1 : ℝ → ℝ) (w : WellResponse) (e : String)
    (hc : w.cached_drawdown = none) (h : w.calc_drawdown e1 = .error e) :
    w.drawdownAccess e1 = .error e := by
  unfold WellResponse.drawdownAccess
  rw [hc, h]

lemma accessAllDepletions_ok (erfc : ℝ → ℝ) (n : ℕ) :
    ∀ rs : List (ℕ × WellResponse),
      (∀ ir ∈ rs, ∃ v r', (ir.2).depletionAccess erfc = .ok (v, r') ∧ v.length = n) →
      ∃ d rs', accessAllDepletions erfc rs = .ok (d, rs')
        ∧ ∀ p ∈ d, (p.2 : List ℝ).length = n := by
  intro rs
  induction rs with
  | nil => exact fun _ => ⟨[], [], rfl, by simp⟩
  | cons ir rest ih =>
    intro h
    obtain ⟨v, r', hv, hl⟩ := h ir (List.mem_cons_self ir rest)
    obtain ⟨d, rs', hd, hld⟩ := ih (fun z hz => h z (List.mem_cons_of_mem ir hz))
    refine ⟨(ir.2.name, v) :: d, (ir.1, r') :: rs', ?_, ?_⟩
    · obtain ⟨i, r⟩ := ir
      unfold accessAllDepletions
      rw [hv, hd]
    · intro p hp
      rcases List.mem_cons.mp hp with rfl | hp'
      · exact hl
      · exact hld p hp'

/-- C1 (amended range): for every depletion computation with
`depletion_years ≥ 1` and `0 ≤ depl_pump_time ≤ 365`, the superposition
engine evaluates the chosen depletion method once per year
`y = 0..depletion_years-1` on a base day-index series (`1..N` shifted forward
by `365·y` days, zero-padded at the front, `N = 365·depletion_years`) and once
on an image series (the same shape additionally offset by `depl_pump_time`
days), each with pumping rate `Q` scaled by the stream apportionment
fraction, and returns the sum of all base evaluations minus the sum of all
image evaluations. -/
theorem claimC1_superposition {α : Type} [Zero α] [Add α] [Sub α]
    (f : ℝ → ℝ → ℝ → ℤ → ℝ → α) (T S dist Q app : ℝ) (Y : ℕ) (dpt : ℤ)
    (hY : 1 ≤ Y) (h0 : 0 ≤ dpt) (h365 : dpt ≤ 365) :
    _calc_depletion f T S dist Q app Y dpt
      = some (depletionSpec f T S dist Q app Y dpt.toNat) :=
  calc_depletion_eq f T S dist Q app Y dpt hY h0 h365

/-- Witness for C1 at `depletion_years = 1`, `depl_pump_time = 7`. -/
theorem claimC1_witness :
    _calc_depletion (fun _ _ _ t _ => t) 0 0 0 1 1 1 7
      = some (depletionSpec (fun _ _ _ t _ => t) 0 0 0 1 1 1 (7 : ℤ).toNat) :=
  claimC1_superposition (fun _ _ _ t _ => t) 0 0 0 1 1 1 7 (by decide) (by decide)
    (by decide)

set_option maxRecDepth 40000 in
/-- Counterexample to C1 as stated: at `depletion_years = 2`,
`depl_pump_time = 366` (inside the claimed range `0..365·2`) the year-1
image-series slice assignment length-mismatches, so the computation aborts
and returns no sum at all. -/
theorem claimC1_counterexample :
    _calc_depletion (fun _ _ _ t _ => t) 0 0 0 1 1 2 366 = (none : Option (List ℤ)) := by
  decide

/-- C5 (amended range): for `depletion_years ≥ 1` and
`0 ≤ depl_pump_time ≤ 365` the depletion result is an array of length exactly
`365·depletion_years`; correspondingly every entry of `well.depletion` maps a
stream name to an array of length `365·5` — the stream responses' own
`depletion_years`, which `Well.__init__` leaves at the `WellResponse` default
`5`. -/
theorem claimC5_shape {α : Type} [Zero α] [Add α] [Sub α]
    (f : ℝ → ℝ → ℝ → ℤ → ℝ → α) (T S dist Q app : ℝ) (Y : ℕ) (dpt : ℤ)
    (hY : 1 ≤ Y) (h0 : 0 ≤ dpt) (h365 : dpt ≤ 365) :
    (∃ l, _calc_depletion f T S dist Q app Y dpt = some l ∧ l.length = 365 * Y)
    ∧ ∀ (erfc : ℝ → ℝ) (Tw Sw Qw : ℝ) (Yw : ℕ) (tt : ℤ)
        (sd dd sa : List (String × ℝ)) (w : Well),
        Well.mk_init Tw Sw Qw Yw tt dpt sd dd sa = .ok w →
        ∃ d w', w.depletionAccess erfc = .ok (d, w')
          ∧ ∀ p ∈ d, (p.2 : List ℝ).length = 365 * 5 := by
  constructor
  · exact ⟨_, calc_depletion_eq f T S dist Q app Y dpt hY h0 h365,
      depletionSpec_length f T S dist (Q) app Y dpt.toNat (by omega)⟩
  · intro erfc Tw Sw Qw Yw tt sd dd sa w hw
    obtain ⟨hkeys, hsr, hcache⟩ := mk_init_ok Tw Sw Qw Yw tt dpt sd dd sa w hw
    have hresp : ∀ ir ∈ w.stream_responses,
        ∃ v r', (Prod.snd ir).depletionAccess erfc = .ok (v, r')
          ∧ v.length = 365 * 5 := by
      intro ir hir
      rw [hsr] at hir
      rcases List.mem_map.mp hir with ⟨cs, hcs, rfl⟩
      have hname : cs.2.1 ∈ sd.map Prod.fst := by
        have h2 : cs.2 ∈ sd := by
          have h3 := List.mem_map_of_mem Prod.snd hcs
          rwa [List.enum_map_snd] at h3
        exact List.mem_map_of_mem Prod.fst h2
      obtain ⟨app2, happ⟩ := lookup_isSome_of_mem _ _ (hkeys _ hname)
      have hcalc : (WellResponse.mk_init cs.2.1 "stream" Tw Sw cs.2.2 Qw
            (sa.lookup cs.2.1) "Theis" "walton" (-9999) dpt 5).calc_depletion erfc
          = .ok (depletionSpec (fun T2 S2 d2 t2 Q2 => _walton T2 S2 d2 (t2 : ℝ) Q2)
              (Tw * 7.48) Sw cs.2.2 Qw app2 5 dpt.toNat) :=
        calc_depletion_ok erfc _ app2 pyLower_walton happ
          (show (1 : ℕ) ≤ 5 by norm_num) h0 h365
      refine ⟨_, _, depletionAccess_of_calc erfc _ _ rfl hcalc, ?_⟩
      exact depletionSpec_length _ _ _ _ _ _ 5 dpt.toNat (by omega)
    obtain ⟨d, rs', hacc, hlen⟩ := accessAllDepletions_ok erfc (365 * 5)
      w.stream_responses hresp
    have hDA : w.depletionAccess erfc
        = .ok (d, { w with cached_depletion := some d, stream_responses := rs' }) := by
      unfold Well.depletionAccess
      rw [hcache, hacc]
    exact ⟨d, _, hDA, hlen⟩

/-- Witness for C5 at `depletion_years = 1`, `depl_pump_time = 0`. -/
theorem claimC5_witness :
    (∃ l, _calc_depletion (fun _ _ _ t _ => t) 0 0 0 1 1 1 0 = some l
      ∧ l.length = 365 * 1)
    ∧ ∀ (erfc : ℝ → ℝ) (Tw Sw Qw : ℝ) (Yw : ℕ) (tt : ℤ)
        (sd dd sa : List (String × ℝ)) (w : Well),
        Well.mk_init Tw Sw Qw Yw tt 0 sd dd sa = .ok w →
        ∃ d w', w.depletionAccess erfc = .ok (d, w')
          ∧ ∀ p ∈ d, (p.2 : List ℝ).length = 365 * 5 :=
  claimC5_shape (fun _ _ _ t _ => t) 0 0 0 1 1 1 0 (by decide) (by decide) (by decide)

set_option maxRecDepth 40000 in
/-- Counterexample to C5 as stated: at `depletion_years = 2`,
`depl_pump_time = 730` (the top of the claimed range `0..365·2`) the
computation aborts with a broadcast error, so no array of any length is
produced. -/
theorem claimC5_counterexample :
    _calc_depletion (fun _ _ _ t _ => t) 0 0 0 1 1 2 730 = (none : Option (List ℤ)) := by
  decide

/-- C9: with `depl_pump_time = 0` the image series equals the base series for
every year, so the accumulated recharge equals the accumulated depletion and
the returned net depletion series is identically zero at every day. -/
theorem claimC9_zero_offset (f : ℝ → ℝ → ℝ → ℤ → ℝ → ℝ) (T S dist Q app : ℝ)
    (Y : ℕ) (hY : 1 ≤ Y) :
    (∃ pairs, calcSeries Y 0 = some pairs ∧ ∀ p ∈ pairs, p.1 = p.2)
    ∧ _calc_depletion f T S dist Q app Y 0
        = some (List.replicate (365 * Y) (0 : ℝ)) := by
  constructor
  · refine ⟨_, calcSeries_eq Y 0 hY le_rfl (by norm_num), ?_⟩
    intro p hp
    rcases List.mem_map.mp hp with ⟨y, hy, rfl⟩
    show specBaseSeries Y y = specImageSeries Y y (0 : ℤ).toNat
    rw [show ((0 : ℤ).toNat) = 0 from rfl, specImageSeries_zero]
  · rw [calc_depletion_eq f T S dist Q app Y 0 hY le_rfl (by norm_num),
      show ((0 : ℤ).toNat) = 0 from rfl, depletionSpec_zero]

/-- Witness for C9 at `depletion_years = 1`. -/
theorem claimC9_witness :
    (∃ pairs, calcSeries 1 0 = some pairs ∧ ∀ p ∈ pairs, p.1 = p.2)
    ∧ _calc_depletion (fun _ _ _ _ _ => (0 : ℝ)) 0 0 0 1 1 1 0
        = some (List.replicate (365 * 1) (0 : ℝ)) :=
  claimC9_zero_offset (fun _ _ _ _ _ => (0 : ℝ)) 0 0 0 1 1 1 (by decide)

/-- C10: for every strictly negative `depl_pump_time` (including the
constructor defaults `-99999` and `-9999`) the year-0 image series slice
assignment length-mismatches (the restarting day-index sequence has length
`N - depl_pump_time > N`), so the computation produces no depletion result,
and the first access to the depletion property of such a `WellResponse`
surfaces the broadcast error. -/
theorem claimC10_negative_offset {α : Type} [Zero α] [Add α] [Sub α]
    (f : ℝ → ℝ → ℝ → ℤ → ℝ → α) (T S dist Q app : ℝ) (Y : ℕ) (dpt : ℤ)
    (hY : 1 ≤ Y) (hd : dpt < 0) :
    _calc_depletion f T S dist Q app Y dpt = none
    ∧ ∀ (erfc : ℝ → ℝ) (name rt ddm dplm : String) (T2 S2 d2 Q2 : ℝ)
        (app2 : Option ℝ) (tt : ℤ),
        (pyLower dplm = "walton" ∨ pyLower dplm = "glover") →
        (WellResponse.mk_init name rt T2 S2 d2 Q2 app2 ddm dplm
            tt dpt Y).depletionAccess erfc = .error "ValueError" := by
  refine ⟨calc_depletion_neg f T S dist Q app Y dpt hY hd, ?_⟩
  intro erfc name rt ddm dplm T2 S2 d2 Q2 app2 tt hm
  exact depletionAccess_of_calc_error erfc _ _ rfl
    (calc_depletion_valueError erfc _ hm hY hd)

/-- Witness for C10 at the `WellResponse` defaults
`depl_pump_time = -99999`, `depletion_years = 5`. -/
theorem claimC10_witness :
    _calc_depletion (fun _ _ _ t _ => t) 0 0 0 1 1 5 (-99999) = (none : Option (List ℤ))
    ∧ ∀ (erfc : ℝ → ℝ) (name rt ddm dplm : String) (T2 S2 d2 Q2 : ℝ)
        (app2 : Option ℝ) (tt : ℤ),
        (pyLower dplm = "walton" ∨ pyLower dplm = "glover") →
        (WellResponse.mk_init name rt T2 S2 d2 Q2 app2 ddm dplm
            tt (-99999) 5).depletionAccess erfc = .error "ValueError" :=
  claimC10_negative_offset (fun _ _ _ t _ => t) 0 0 0 1 1 5 (-99999)
    (by decide) (by decide)

/-- C2 (amended): the superposition engine does not exclude or replace the
zero-filled leading slots: the chosen depletion method is invoked on every
element of every padded series, and in particular it is invoked at time `0`
whenever `depl_pump_time > 0` (the year-0 image series starts with
`depl_pump_time` zeros that are passed to the method). -/
theorem claimC2_zero_time_invoked (Y : ℕ) (dpt : ℤ)
    (hY : 1 ≤ Y) (h0 : 0 < dpt) (h365 : dpt ≤ 365) :
    ∃ ts, invokedTimes Y dpt = some ts ∧ (0 : ℤ) ∈ ts := by
  unfold invokedTimes
  rw [calcSeries_eq Y dpt hY (by omega) h365]
  refine ⟨_, rfl, ?_⟩
  apply List.mem_append_right
  refine List.mem_flatten.mpr ⟨specImageSeries Y 0 dpt.toNat, ?_, ?_⟩
  · rw [List.map_map]
    exact List.mem_map.mpr ⟨0, List.mem_range.mpr (by omega), rfl⟩
  · apply List.mem_append_left
    exact List.mem_replicate.mpr ⟨by omega, rfl⟩

/-- Witness for C2's amended statement at `depletion_years = 1`,
`depl_pump_time = 1`. -/
theorem claimC2_witness :
    ∃ ts, invokedTimes 1 1 = some ts ∧ (0 : ℤ) ∈ ts :=
  claimC2_zero_time_invoked 1 1 (by decide) (by decide) (by decide)

set_option maxRecDepth 40000 in
/-- Counterexample to C2 as stated: two depletion methods that agree at every
time `t > 0` (both are `0` there) but differ at `t ≤ 0` produce different
results — so the engine does invoke the method at a time `≤ 0` and does not
force the result at the padded positions to zero. -/
theorem claimC2_counterexample :
    _calc_depletion (fun _ _ _ t _ => if t ≤ 0 then (1 : ℤ) else 0) 0 0 0 1 1 1 1
      ≠ _calc_depletion (fun _ _ _ _ _ => (0 : ℤ)) 0 0 0 1 1 1 1 := by
  decide

/-- C3 (corrected): `Well` construction checks only one inclusion
(`set(stream_dist) - set(stream_apportionment)` empty): it fails with the
`AssertionError` — before any response objects are built — iff some stream
name of the distance mapping is missing from the apportionment mapping, and
succeeds whenever the distance keys are contained in the apportionment keys;
in particular it succeeds whenever the two key sets are identical. -/
theorem claimC3_key_check (T S Q : ℝ) (Yw : ℕ) (tt dpt : ℤ)
    (sd dd sa : List (String × ℝ)) :
    ((Well.mk_init T S Q Yw tt dpt sd dd sa).isOk = true
      ↔ ∀ k ∈ sd.map Prod.fst, k ∈ sa.map Prod.fst)
    ∧ ((Well.mk_init T S Q Yw tt dpt sd dd sa).isOk = false
      ↔ Well.mk_init T S Q Yw tt dpt sd dd sa = .error "AssertionError") := by
  unfold Well.mk_init
  split
  case isTrue hcond =>
    exact ⟨iff_of_true rfl ((sdiff_card_zero_iff _ _).mp hcond),
      iff_of_false (by simp [Except.isOk, Except.toBool]) (by simp)⟩
  case isFalse hcond =>
    exact ⟨iff_of_false (by simp [Except.isOk, Except.toBool])
        (fun h => hcond ((sdiff_card_zero_iff _ _).mpr h)),
      iff_of_true rfl rfl⟩

/-- Counterexample to C3 as stated: with distance keys `{"creekA"}` and
apportionment keys `{"creekA", "creekB"}` the two key sets are not equal, yet
construction succeeds — the assert only checks the distance-minus-apportionment
difference, not set equality. -/
theorem claimC3_counterexample :
    (Well.mk_init 1 1 1 5 1 1 [("creekA", 500)] []
        [("creekA", 0.5), ("creekB", 0.5)]).isOk = true
    ∧ ((["creekA"] : List String).toFinset
        ≠ (["creekA", "creekB"] : List String).toFinset) := by
  constructor
  · rfl
  · decide

/-- C4: the Walton depletion function computes
`G = dist/sqrt(0.535·time·T/S)` for `dist > 0` (else `G = 0`), the stated
polynomials `I` and `J` with exactly the stated coefficients, and returns
`Q·(1/J)/86400`; in particular for `dist = 0` it returns `Q/86400`. -/
theorem claimC4_walton (T S dist time Q : ℝ)
    (hT : 0 < T) (hS : 0 < S) (ht : 0 < time) :
    (_walton T S dist time Q =
      (let G := if 0 < dist then dist / Real.sqrt (0.535 * time * T / S) else 0
       let I := 1 + 0.0705230784 * G + 0.0422820123 * G ^ 2 + 0.0092705272 * G ^ 3
       let J := (I + 1.52014e-4 * G ^ 4 + 2.76567e-4 * G ^ 5
         + 4.30638e-5 * G ^ 6) ^ (16 : ℕ)
       Q * (1 / J) / 86400))
    ∧ _walton T S 0 time Q = Q / 86400 := by
  constructor
  · unfold _walton
    norm_num [div_div]
  · unfold _walton
    norm_num [div_div]

/-- Witness for C4 at `T = S = time = 1`, `dist = 2`, `Q = 3`. -/
theorem claimC4_witness :
    (_walton 1 1 2 1 3 =
      (let G := if (0:ℝ) < 2 then 2 / Real.sqrt (0.535 * 1 * 1 / 1) else 0
       let I := 1 + 0.0705230784 * G + 0.0422820123 * G ^ 2 + 0.0092705272 * G ^ 3
       let J := (I + 1.52014e-4 * G ^ 4 + 2.76567e-4 * G ^ 5
         + 4.30638e-5 * G ^ 6) ^ (16 : ℕ)
       3 * (1 / J) / 86400))
    ∧ _walton 1 1 0 1 3 = 3 / 86400 :=
  claimC4_walton 1 1 2 1 3 (by norm_num) (by norm_num) (by norm_num)

/-- C7: the Theis drawdown function returns `(Q/(4·π·T))·E₁(u)` with
`u = dist²·S/(4·T·time)`, for scalar inputs and elementwise over array/list
time or distance inputs. -/
theorem claimC7_theis (e1 : ℝ → ℝ) (T S time dist Q : ℝ)
    (times dists : List ℝ) (hT : 0 < T) (hS : 0 < S) (ht : 0 < time) :
    _theis e1 T S time dist Q
        = (Q / (4 * Real.pi * T)) * e1 (dist ^ 2 * S / (4 * T * time))
    ∧ _theisTimes e1 T S times dist Q
        = times.map (fun t => (Q / (4 * Real.pi * T)) * e1 (dist ^ 2 * S / (4 * T * t)))
    ∧ _theisDists e1 T S time dists Q
        = dists.map (fun d => (Q / (4 * Real.pi * T)) * e1 (d ^ 2 * S / (4 * T * time))) :=
  ⟨rfl, rfl, rfl⟩

/-- Witness for C7 at `e1 = id`, unit parameters. -/
theorem claimC7_witness :
    _theis (fun x => x) 1 1 1 1 1
        = (1 / (4 * Real.pi * 1)) * ((fun x => x) ((1:ℝ) ^ 2 * 1 / (4 * 1 * 1)))
    ∧ _theisTimes (fun x => x) 1 1 [1] 1 1
        = [(1:ℝ)].map (fun t => (1 / (4 * Real.pi * 1)) * ((fun x => x) ((1:ℝ) ^ 2 * 1 / (4 * 1 * t))))
    ∧ _theisDists (fun x => x) 1 1 1 [1] 1
        = [(1:ℝ)].map (fun d => (1 / (4 * Real.pi * 1)) * ((fun x => x) (d ^ 2 * 1 / (4 * 1 * 1)))) :=
  claimC7_theis (fun x => x) 1 1 1 1 1 [1] [1] (by norm_num) (by norm_num) (by norm_num)

/-- C6: a `WellResponse` constructed with a drawdown or depletion method name
whose lowercase form is not a registry key (`{"theis"}` for drawdown,
`{"glover","walton"}` for depletion) is constructed successfully — the
configuration is stored verbatim and both caches are unset — and the lookup
failure (`KeyError`) surfaces at the first access of the corresponding
property, not before. -/
theorem claimC6_unknown_method (e1 erfc : ℝ → ℝ)
    (name rt ddm dplm : String) (T S dist Q : ℝ) (app : Option ℝ)
    (tt dpt : ℤ) (Yw : ℕ)
    (hdd : pyLower ddm ≠ "theis")
    (hg : pyLower dplm ≠ "glover") (hw : pyLower dplm ≠ "walton") :
    (WellResponse.mk_init name rt T S dist Q app ddm dplm tt dpt Yw).cached_drawdown = none
    ∧ (WellResponse.mk_init name rt T S dist Q app ddm dplm tt dpt Yw).cached_depletion = none
    ∧ (WellResponse.mk_init name rt T S dist Q app ddm dplm tt dpt Yw).dd_method = ddm
    ∧ (WellResponse.mk_init name rt T S dist Q app ddm dplm tt dpt Yw).depl_method = dplm
    ∧ (WellResponse.mk_init name rt T S dist Q app ddm dplm tt dpt Yw).drawdownAccess e1
        = .error "KeyError"
    ∧ (WellResponse.mk_init name rt T S dist Q app ddm dplm tt dpt Yw).depletionAccess erfc
        = .error "KeyError" := by
  refine ⟨rfl, rfl, rfl, rfl, ?_, ?_⟩
  · refine drawdownAccess_of_calc_error e1 _ _ rfl ?_
    unfold WellResponse.calc_drawdown
    rw [show (WellResponse.mk_init name rt T S dist Q app ddm dplm tt dpt Yw).dd_method
        = ddm from rfl,
      lookup_dd_none e1 _ hdd]
  · refine depletionAccess_of_calc_error erfc _ _ rfl ?_
    unfold WellResponse.calc_depletion
    rw [show (WellResponse.mk_init name rt T S dist Q app ddm dplm tt dpt Yw).depl_method
        = dplm from rfl,
      lookup_depl_none erfc _ hg hw]

/-- Witness for C6 with the unknown method names `"Frobnicate"`/`"Nope"`. -/
theorem claimC6_witness :
    (WellResponse.mk_init "x" "well" 1 1 1 1 none "Frobnicate" "Nope" 1 1 1).cached_drawdown = none
    ∧ (WellResponse.mk_init "x" "well" 1 1 1 1 none "Frobnicate" "Nope" 1 1 1).cached_depletion = none
    ∧ (WellResponse.mk_init "x" "well" 1 1 1 1 none "Frobnicate" "Nope" 1 1 1).dd_method = "Frobnicate"
    ∧ (WellResponse.mk_init "x" "well" 1 1 1 1 none "Frobnicate" "Nope" 1 1 1).depl_method = "Nope"
    ∧ (WellResponse.mk_init "x" "well" 1 1 1 1 none "Frobnicate" "Nope" 1 1 1).drawdownAccess
        (fun _ => (0:ℝ)) = .error "KeyError"
    ∧ (WellResponse.mk_init "x" "well" 1 1 1 1 none "Frobnicate" "Nope" 1 1 1).depletionAccess
        (fun _ => (0:ℝ)) = .error "KeyError" :=
  claimC6_unknown_method (fun _ => (0:ℝ)) (fun _ => (0:ℝ)) "x" "well" "Frobnicate" "Nope"
    1 1 1 1 none 1 1 1 (by decide) (by decide) (by decide)

/-- C8: each of the two lazily cached outputs of a `WellResponse` and of a
`Well` is computed at most once: an access fills the memoised slot with
exactly the value it returns, an immediately repeated access returns the same
value-and-state pair unchanged, an already-filled slot is returned without
recomputation, and the drawdown and depletion slots are independent of each
other. -/
theorem claimC8_memoization (e1 erfc : ℝ → ℝ) (w : WellResponse) (wl : Well)
    (v : ℝ) (vl : List ℝ) (mv : List (String × ℝ)) (ml : List (String × List ℝ)) :
    ((w.drawdownAccess e1 >>= fun p => p.2.drawdownAccess e1) = w.drawdownAccess e1
      ∧ (w.drawdownAccess e1).map (fun p => p.2.cached_drawdown)
          = (w.drawdownAccess e1).map (fun p => some p.1)
      ∧ (w.drawdownAccess e1).map (fun p => p.2.cached_depletion)
          = (w.drawdownAccess e1).map (fun _ => w.cached_depletion)
      ∧ ({ w with cached_drawdown := some v }).drawdownAccess e1
          = .ok (v, { w with cached_drawdown := some v }))
    ∧ ((w.depletionAccess erfc >>= fun p => p.2.depletionAccess erfc)
          = w.depletionAccess erfc
      ∧ (w.depletionAccess erfc).map (fun p => p.2.cached_depletion)
          = (w.depletionAccess erfc).map (fun p => some p.1)
      ∧ (w.depletionAccess erfc).map (fun p => p.2.cached_drawdown)
          = (w.depletionAccess erfc).map (fun _ => w.cached_drawdown)
      ∧ ({ w with cached_depletion := some vl }).depletionAccess erfc
          = .ok (vl, { w with cached_depletion := some vl }))
    ∧ ((wl.drawdownAccess e1 >>= fun p => p.2.drawdownAccess e1) = wl.drawdownAccess e1
      ∧ (wl.drawdownAccess e1).map (fun p => p.2.cached_drawdown)
          = (wl.drawdownAccess e1).map (fun p => some p.1)
      ∧ (wl.drawdownAccess e1).map (fun p => p.2.cached_depletion)
          = (wl.drawdownAccess e1).map (fun _ => wl.cached_depletion)
      ∧ ({ wl with cached_drawdown := some mv }).drawdownAccess e1
          = .ok (mv, { wl with cached_drawdown := some mv }))
    ∧ ((wl.depletionAccess erfc >>= fun p => p.2.depletionAccess erfc)
          = wl.depletionAccess erfc
      ∧ (wl.depletionAccess erfc).map (fun p => p.2.cached_depletion)
          = (wl.depletionAccess erfc).map (fun p => some p.1)
      ∧ (wl.depletionAccess erfc).map (fun p => p.2.cached_drawdown)
          = (wl.depletionAccess erfc).map (fun _ => wl.cached_drawdown)
      ∧ ({ wl with cached_depletion := some ml }).depletionAccess erfc
          = .ok (ml, { wl with cached_depletion := some ml })) := by
  refine ⟨⟨?_, ?_, ?_, ?_⟩, ⟨?_, ?_, ?_, ?_⟩, ⟨?_, ?_, ?_, ?_⟩, ⟨?_, ?_, ?_, ?_⟩⟩
  · cases hc : w.cached_drawdown with
    | some v0 => simp [WellResponse.drawdownAccess, hc, Bind.bind, Except.bind, Except.map]
    | none =>
      cases hd : w.calc_drawdown e1 with
      | error e => simp [WellResponse.drawdownAccess, hc, hd, Bind.bind, Except.bind, Except.map]
      | ok v0 => simp [WellResponse.drawdownAccess, hc, hd, Bind.bind, Except.bind, Except.map]
  · cases hc : w.cached_drawdown with
    | some v0 => simp [WellResponse.drawdownAccess, hc, Except.map]
    | none =>
      cases hd : w.calc_drawdown e1 with
      | error e => simp [WellResponse.drawdownAccess, hc, hd, Except.map]
      | ok v0 => simp [WellResponse.drawdownAccess, hc, hd, Except.map]
  · cases hc : w.cached_drawdown with
    | some v0 => simp [WellResponse.drawdownAccess, hc, Except.map]
    | none =>
      cases hd : w.calc_drawdown e1 with
      | error e => simp [WellResponse.drawdownAccess, hc, hd, Except.map]
      | ok v0 => simp [WellResponse.drawdownAccess, hc, hd, Except.map]
  · simp [WellResponse.drawdownAccess, Except.map]
  · cases hc : w.cached_depletion with
    | some v0 => simp [WellResponse.depletionAccess, hc, Bind.bind, Except.bind, Except.map]
    | none =>
      cases hd : w.calc_depletion erfc with
      | error e => simp [WellResponse.depletionAccess, hc, hd, Bind.bind, Except.bind, Except.map]
      | ok v0 => simp [WellResponse.depletionAccess, hc, hd, Bind.bind, Except.bind, Except.map]
  · cases hc : w.cached_depletion with
    | some v0 => simp [WellResponse.depletionAccess, hc, Except.map]
    | none =>
      cases hd : w.calc_depletion erfc with
      | error e => simp [WellResponse.depletionAccess, hc, hd, Except.map]
      | ok v0 => simp [WellResponse.depletionAccess, hc, hd, Except.map]
  · cases hc : w.cached_depletion with
    | some v0 => simp [WellResponse.depletionAccess, hc, Except.map]
    | none =>
      cases hd : w.calc_depletion erfc with
      | error e => simp [WellResponse.depletionAccess, hc, hd, Except.map]
      | ok v0 => simp [WellResponse.depletionAccess, hc, hd, Except.map]
  · simp [WellResponse.depletionAccess, Except.map]
  · cases hc : wl.cached_drawdown with
    | some v0 => simp [Well.drawdownAccess, hc, Bind.bind, Except.bind, Except.map]
    | none =>
      cases hd : accessAllDrawdowns e1 wl.drawdown_responses with
      | error e => simp [Well.drawdownAccess, hc, hd, Bind.bind, Except.bind, Except.map]
      | ok v0 => simp [Well.drawdownAccess, hc, hd, Bind.bind, Except.bind, Except.map]
  · cases hc : wl.cached_drawdown with
    | some v0 => simp [Well.drawdownAccess, hc, Except.map]
    | none =>
      cases hd : accessAllDrawdowns e1 wl.drawdown_responses with
      | error e => simp [Well.drawdownAccess, hc, hd, Except.map]
      | ok v0 => simp [Well.drawdownAccess, hc, hd, Except.map]
  · cases hc : wl.cached_drawdown with
    | some v0 => simp [Well.drawdownAccess, hc, Except.map]
    | none =>
      cases hd : accessAllDrawdowns e1 wl.drawdown_responses with
      | error e => simp [Well.drawdownAccess, hc, hd, Except.map]
      | ok v0 => simp [Well.drawdownAccess, hc, hd, Except.map]
  · simp [Well.drawdownAccess, Except.map]
  · cases hc : wl.cached_depletion with
    | some v0 => simp [Well.depletionAccess, hc, Bind.bind, Except.bind, Except.map]
    | none =>
      cases hd : accessAllDepletions erfc wl.stream_responses with
      | error e => simp [Well.depletionAccess, hc, hd, Bind.bind, Except.bind, Except.map]
      | ok v0 => simp [Well.depletionAccess, hc, hd, Bind.bind, Except.bind, Except.map]
  · cases hc : wl.cached_depletion with
    | some v0 => simp [Well.depletionAccess, hc, Except.map]
    | none =>
      cases hd : accessAllDepletions erfc wl.stream_responses with
      | error e => simp [Well.depletionAccess, hc, hd, Except.map]
      | ok v0 => simp [Well.depletionAccess, hc, hd, Except.map]
  · cases hc : wl.cached_depletion with
    | some v0 => simp [Well.depletionAccess, hc, Except.map]
    | none =>
      cases hd : accessAllDepletions erfc wl.stream_responses with
      | error e => simp [Well.depletionAccess, hc, hd, Except.map]
      | ok v0 => simp [Well.depletionAccess, hc, hd, Except.map]
  · simp [Well.depletionAccess, Except.map]
